import Mathlib

/-!
Shallow embedding of the invoice tampering detector pipeline
(`detector/fraud_scorer.py`, `detector/ela_detector.py`,
`detector/metadata_checker.py`, `detector/ocr_validator.py`).

Numeric scores are modelled as exact rationals (the Python code uses IEEE
floats; all claims under study concern values where the float computations
are exact or where exact rational arithmetic is the intended reading).
Effectful steps (filesystem access, Pillow image operations, Tesseract) are
modelled by explicit outcome parameters: an `Except String` value stands for
"the step either succeeded with this result or raised an exception with this
message". A Python function that may raise past its boundary is embedded as
a function into `Except String α`; `Except.error` means an escaped exception.
-/

namespace InvoiceTamper

/-- Embeds Python `round(x, 2)` on a rational: round to two decimal places.
Ties (exact half cents) do not occur in any value examined here, so the
difference between round-half-even and round-half-up is immaterial. -/
def round2 (q : ℚ) : ℚ := ((round (q * 100) : ℤ) : ℚ) / 100

/-- Embeds `fraud_scorer._final_verdict_from_score`. -/
def finalVerdictFromScore (finalScore : ℚ) : String :=
  if finalScore ≥ 65 then "HIGH RISK - Likely Tampered"
  else if finalScore ≥ 40 then "MEDIUM RISK - Requires Review"
  else "LOW RISK - Appears Authentic"

/-- Embeds `ela_detector._risk_verdict_for_score` (label-parameterized buckets). -/
def riskVerdictForScore (score : ℚ) (methodLabel : String) : String :=
  if score ≥ 65 then "HIGH " ++ methodLabel ++ " RISK"
  else if score ≥ 40 then "MEDIUM " ++ methodLabel ++ " RISK"
  else "LOW " ++ methodLabel ++ " RISK"

/-- Embeds `metadata_checker._risk_verdict_from_score`. -/
def metadataRiskVerdict (score : ℚ) : String :=
  if score ≥ 65 then "HIGH METADATA RISK"
  else if score ≥ 40 then "MEDIUM METADATA RISK"
  else "LOW METADATA RISK"

/-- Embeds `ocr_validator._risk_verdict_from_score`. -/
def ocrRiskVerdict (score : ℚ) : String :=
  if score ≥ 65 then "HIGH OCR RISK"
  else if score ≥ 40 then "MEDIUM OCR RISK"
  else "LOW OCR RISK"

/-- Value found under the key "score" of a detector result dictionary, as seen
by `fraud_scorer._score_value`: the key may be absent, present but not
convertible by `float(...)`, or a number. -/
inductive ScoreEntry : Type
  | missing : ScoreEntry
  | nonNumeric : ScoreEntry
  | numeric (value : ℚ) : ScoreEntry
deriving DecidableEq

/-- Embeds `fraud_scorer._score_value`: `float(payload.get("score", fallback))`
with `TypeError`/`ValueError` from the conversion replaced by the fallback. -/
def scoreValue (entry : ScoreEntry) (fallback : ℚ) : ℚ :=
  match entry with
  | ScoreEntry.numeric value => value
  | ScoreEntry.missing => fallback
  | ScoreEntry.nonNumeric => fallback

/-- Final score and verdict part of the report built by
`InvoiceFraudScorer._assemble_fraud_report`. -/
structure FraudSummary where
  finalScore : ℚ
  verdict : String
deriving DecidableEq

/-- Embeds the scoring part of `InvoiceFraudScorer._assemble_fraud_report`:
weights 0.4 / 0.3 / 0.3, fallbacks 50 / 50 / 40, final score rounded to two
decimals, verdict computed from the unrounded weighted sum. -/
def assembleFraudReport (elaEntry metadataEntry ocrEntry : ScoreEntry) : FraudSummary :=
  let finalScore :=
    scoreValue elaEntry 50 * (4/10)
      + scoreValue metadataEntry 50 * (3/10)
      + scoreValue ocrEntry 40 * (3/10)
  { finalScore := round2 finalScore
    verdict := finalVerdictFromScore finalScore }

/-- Embeds the `ElaMetrics` dataclass of `ela_detector.py`. -/
structure ElaMetrics where
  brightnessMean : ℚ
  brightnessVariance : ℚ
  maxPixelDifference : ℕ
  jpegQuality : ℤ
deriving DecidableEq

/-- Embeds `ela_detector._score_from_ela_metrics`. -/
def scoreFromElaMetrics (elaMetrics : ElaMetrics) : ℚ :=
  if elaMetrics.maxPixelDifference = 0 then 50
  else
    min 100 (elaMetrics.brightnessMean / 255 * 50 + elaMetrics.brightnessVariance / 1000 * 50)

/-- Embeds the verdict choice inside `InvoiceElaAnalyzer._compute_ela_observations`:
a zero maximum pixel difference gets the fixed suspicious label, otherwise the
shared bucketing with label "ELA". -/
def elaVerdictFromMetrics (elaMetrics : ElaMetrics) : String :=
  if elaMetrics.maxPixelDifference = 0 then "SUSPICIOUS - No compression artifacts detected"
  else riskVerdictForScore (scoreFromElaMetrics elaMetrics) "ELA"

/-- Result dictionary returned by the ELA analyzer. The `metrics` sub-dictionary
is empty on the failure branch, modelled as `none`. -/
structure ElaPayload where
  score : ℚ
  verdict : String
  visualizationPath : Option String
  metrics : Option ElaMetrics
  error : Option String
deriving DecidableEq

/-- Embeds the `except` branch of `InvoiceElaAnalyzer.analyze_invoice_image`. -/
def elaProcessingFailedPayload (message : String) : ElaPayload :=
  { score := 50
    verdict := "INCONCLUSIVE - ELA processing failed"
    visualizationPath := none
    metrics := none
    error := some message }

/-- Outcomes of the effectful steps performed by
`InvoiceElaAnalyzer.analyze_invoice_image`, in program order:
`mkdirFailure` is the `OSError` message raised by `_ensure_directory` when
`os.makedirs` fails (`none` when directory creation succeeds);
`observations` is the outcome of `_compute_ela_observations` (the measured
`ElaMetrics` on success, the exception message on failure);
`persistVisualization` is the outcome of
`_persist_visualization_and_get_path` (the returned display path on success,
the exception message on failure). -/
structure ElaRunEnv where
  mkdirFailure : Option String
  observations : Except String ElaMetrics
  persistVisualization : Except String String

/-- Embeds the control flow of `InvoiceElaAnalyzer.analyze_invoice_image`.
`_ensure_directory` is called before the `try` block, so its `OSError`
escapes the function (`Except.error`); every failure inside the `try` block
is caught and turned into the fixed inconclusive payload. Score and verdict
on the success path are pure functions of the measured metrics, exactly as in
`_compute_ela_observations`. -/
def elaAnalyzeInvoiceImage (env : ElaRunEnv) : Except String ElaPayload :=
  match env.mkdirFailure with
  | some message => Except.error message
  | none =>
    Except.ok <|
      match env.observations with
      | Except.error message => elaProcessingFailedPayload message
      | Except.ok elaMetrics =>
        match env.persistVisualization with
        | Except.error message => elaProcessingFailedPayload message
        | Except.ok visualizationPath =>
          { score := round2 (scoreFromElaMetrics elaMetrics)
            verdict := elaVerdictFromMetrics elaMetrics
            visualizationPath := some visualizationPath
            metrics := some elaMetrics
            error := none }

/-- Embeds `InvoiceFraudScorer._run_ela_check`: the aggregator-side wrapper
that replaces any exception escaping the ELA analyzer with a fixed payload. -/
def runElaCheck (outcome : Except String ElaPayload) : ElaPayload :=
  match outcome with
  | Except.ok payload => payload
  | Except.error message =>
    { score := 50
      verdict := "INCONCLUSIVE - ELA failed"
      visualizationPath := none
      metrics := none
      error := some message }

/-- Decoded raster image, reduced to the dimensions that the downscaling
logic inspects. -/
structure InvoiceImage where
  width : ℕ
  height : ℕ
deriving DecidableEq

/-- Embeds `fraud_scorer._shrink_image_to_max_width`. Python computes
`max(1, int(height_px * (max_width_px / width_px)))` with float division and
`int` truncation; for nonnegative operands this is the floor, embedded here
as exact natural division. -/
def shrinkImageToMaxWidth (invoiceImage : InvoiceImage) (maxWidthPx : ℤ) : InvoiceImage :=
  if maxWidthPx ≤ 0 then invoiceImage
  else if (invoiceImage.width : ℤ) ≤ maxWidthPx then invoiceImage
  else
    { width := maxWidthPx.toNat
      height := max 1 (invoiceImage.height * maxWidthPx.toNat / invoiceImage.width) }

/-- Images handed to each of the three detectors by one call of
`InvoiceFraudScorer.analyze_invoice_image`. -/
structure DetectorInputs where
  elaInput : InvoiceImage
  metadataInput : InvoiceImage
  ocrInput : InvoiceImage
deriving DecidableEq

/-- Embeds the image routing of `InvoiceFraudScorer.analyze_invoice_image`
(no metadata override, non-PDF path): `analysis_image` (the shrunk image) is
passed to `_run_ela_check` and `_run_ocr_check`, while `_run_metadata_check`
receives the original `invoice_image`. -/
def analyzeDetectorInputs (invoiceImage : InvoiceImage) (maxImageWidthPx : ℤ) : DetectorInputs :=
  let analysisImage := shrinkImageToMaxWidth invoiceImage maxImageWidthPx
  { elaInput := analysisImage
    metadataInput := invoiceImage
    ocrInput := analysisImage }

/-- Extracted EXIF metadata as a string-keyed association list, the shape
produced by `metadata_checker._extract_exif_metadata` (tag names mapped to
display strings; a Python dict has unique keys, and lookups below take the
first matching entry). -/
abbrev ExifMap := List (String × String)

/-- Embeds `dict.get(key)` on the extracted metadata mapping. -/
def exifGet (exifMetadata : ExifMap) (key : String) : Option String :=
  (exifMetadata.find? (fun entry => entry.fst == key)).map Prod.snd

/-- Embeds Python truthiness of `dict.get(key)`: `None` and the empty string
are falsy, every other string is truthy. -/
def truthyStr (value : Option String) : Bool :=
  match value with
  | none => false
  | some s => !s.isEmpty

/-- Embeds Python `a or b` where `a` is an optional string and `b` a string:
the left operand is kept when truthy, otherwise the right one. -/
def pyOr (value : Option String) (alternative : String) : String :=
  match value with
  | none => alternative
  | some s => if s.isEmpty then alternative else s

/-- Embeds the hint selection in `metadata_checker._detect_editing_software`:
`exif.get("Software") or exif.get("ProcessingSoftware") or ""`. -/
def softwareHint (exifMetadata : ExifMap) : String :=
  pyOr (exifGet exifMetadata "Software") (pyOr (exifGet exifMetadata "ProcessingSoftware") "")

/-- Marker set of `metadata_checker._detect_editing_software`. -/
def editingMarkers : List String :=
  ["photoshop", "gimp", "paint.net", "paint shop", "adobe"]

/-- Boolean substring test on character lists: embeds Python `needle in hay`
for strings. -/
def hasSubList (needle : List Char) : List Char → Bool
  | [] => needle.isEmpty
  | c :: rest => needle.isPrefixOf (c :: rest) || hasSubList needle rest

/-- Embeds `metadata_checker._detect_editing_software`. Lowercasing is
modelled per character; the markers and the software strings of interest are
ASCII, where this coincides with Python `str.lower`. -/
def detectEditingSoftware (exifMetadata : ExifMap) : Option String :=
  let hint := softwareHint exifMetadata
  let searchable := hint.toList.map Char.toLower
  if editingMarkers.any (fun marker => hasSubList marker.toList searchable) && !hint.isEmpty then
    some hint
  else none

/-- Result dictionary returned by the metadata inspector. -/
structure MetadataPayload where
  score : ℚ
  verdict : String
  flags : List String
  metadata : ExifMap
  error : Option String
deriving DecidableEq

/-- Critical field tuple `("Make", "Model", "DateTime")` from
`InvoiceMetadataInspector.inspect_invoice_image`. -/
def criticalExifFields : List String := ["Make", "Model", "DateTime"]

/-- Embeds `InvoiceMetadataInspector.inspect_invoice_image` from the point
where the extracted metadata mapping is in hand: terminal fixed result when
the mapping is empty, otherwise the three independent additive checks. -/
def inspectInvoiceImage (exifMetadata : ExifMap) : MetadataPayload :=
  if exifMetadata.isEmpty then
    { score := 50
      verdict := "SUSPICIOUS - No EXIF metadata found"
      flags := ["No EXIF metadata present (often stripped by editors or screenshots)."]
      metadata := []
      error := none }
  else
    let editingSoftware := detectEditingSoftware exifMetadata
    let softwareScore : ℚ := if editingSoftware.isSome then 30 else 0
    let softwareFlags : List String :=
      match editingSoftware with
      | some software => ["Edited with: " ++ software]
      | none => []
    let dateTime := exifGet exifMetadata "DateTime"
    let dateTimeOriginal := exifGet exifMetadata "DateTimeOriginal"
    let dateMismatch :=
      truthyStr dateTime && truthyStr dateTimeOriginal && dateTime != dateTimeOriginal
    let dateScore : ℚ := if dateMismatch then 20 else 0
    let dateFlags : List String :=
      if dateMismatch then ["DateTime differs from DateTimeOriginal (possible re-save or edit)."]
      else []
    let missingFields :=
      criticalExifFields.filter (fun field => !truthyStr (exifGet exifMetadata field))
    let missingScore : ℚ := if missingFields.isEmpty then 0 else 15
    let missingFlags : List String :=
      if missingFields.isEmpty then []
      else ["Missing critical EXIF fields: " ++ String.intercalate ", " missingFields]
    let score := softwareScore + dateScore + missingScore
    { score := min 100 score
      verdict := metadataRiskVerdict score
      flags := softwareFlags ++ dateFlags ++ missingFlags
      metadata := exifMetadata
      error := none }

/-- Embeds `InvoiceFraudScorer._run_metadata_check`: fixed payload for PDF
input, otherwise the inspector result with exceptions replaced by a fixed
inconclusive payload. -/
def runMetadataCheck (isPdf : Bool) (outcome : Except String MetadataPayload) : MetadataPayload :=
  if isPdf then
    { score := 50
      verdict := "SUSPICIOUS - No EXIF metadata found"
      flags := ["PDF input has no EXIF metadata; metadata checks are limited."]
      metadata := []
      error := none }
  else
    match outcome with
    | Except.ok payload => payload
    | Except.error message =>
      { score := 50
        verdict := "INCONCLUSIVE - Metadata inspection failed"
        flags := ["Could not extract EXIF metadata."]
        metadata := []
        error := some message }

/-- Embeds the `ParsedAmount` entries produced by
`ocr_validator._extract_amounts_from_text`. -/
structure ParsedAmount where
  raw : String
  value : ℚ
deriving DecidableEq

/-- Embeds the Python format `f"{value:.2f}"` for a value that is already
rounded to two decimal places. -/
def formatTwoDp (q : ℚ) : String :=
  let cents : ℤ := round (q * 100)
  let sign := if cents < 0 then "-" else ""
  let magnitude := cents.natAbs
  sign ++ toString (magnitude / 100) ++ "."
    ++ (if magnitude % 100 < 10 then "0" else "") ++ toString (magnitude % 100)

/-- Embeds the `Counter`-based duplicate detection in
`ocr_validator._score_amount_consistency_checks`: the rounded values whose
multiplicity exceeds one, each listed once. The order differs from Python's
insertion order, which is immaterial because the flag sorts the values. -/
def duplicateValues (roundedValues : List ℚ) : List ℚ :=
  roundedValues.dedup.filter (fun v => decide (1 < roundedValues.count v))

/-- Embeds `ocr_validator._sum_mismatch_with_tolerance`. -/
def sumMismatchWithTolerance (amountValues : List ℚ) (toleranceRatio : ℚ) : Bool :=
  if amountValues.length < 3 then false
  else
    let sortedValues := amountValues.insertionSort (· ≤ ·)
    match sortedValues.getLast? with
    | none => false
    | some totalValue =>
      if totalValue ≤ 0 then false
      else
        let lineItemsSum := sortedValues.dropLast.sum
        decide (|lineItemsSum - totalValue| / totalValue > toleranceRatio)

/-- Score and flags produced by
`ocr_validator._score_amount_consistency_checks`. -/
structure OcrScoreBundle where
  score : ℚ
  flags : List String
deriving DecidableEq

/-- Embeds `ocr_validator._score_amount_consistency_checks`. -/
def scoreAmountConsistencyChecks (amountValues : List ℚ) (toleranceRatio : ℚ) : OcrScoreBundle :=
  let fewScore : ℚ := if amountValues.length < 2 then 40 else 0
  let fewFlags : List String :=
    if amountValues.length < 2 then ["Too few amounts detected by OCR (< 2)."] else []
  let roundedValues := amountValues.map round2
  let duplicates := duplicateValues roundedValues
  let dupActive := !amountValues.isEmpty && !duplicates.isEmpty
  let dupScore : ℚ := if dupActive then 20 else 0
  let dupFlags : List String :=
    if dupActive then
      ["Duplicate amounts detected: "
        ++ String.intercalate ", " ((duplicates.insertionSort (· ≤ ·)).map formatTwoDp)]
    else []
  let mismatch := sumMismatchWithTolerance amountValues toleranceRatio
  let mismatchScore : ℚ := if mismatch then 35 else 0
  let mismatchFlags : List String :=
    if mismatch then ["Line items do not sum to the total within the allowed tolerance."]
    else []
  { score := fewScore + dupScore + mismatchScore
    flags := fewFlags ++ dupFlags ++ mismatchFlags }

/-- Result dictionary returned by the OCR validator. -/
structure OcrPayload where
  score : ℚ
  verdict : String
  flags : List String
  extractedText : String
  amounts : List ParsedAmount
  error : Option String
deriving DecidableEq

/-- Embeds `ocr_validator._inconclusive_ocr_report`. -/
def inconclusiveOcrReport (verdict : String) (flags : List String) (errorMessage : String) : OcrPayload :=
  { score := 40
    verdict := verdict
    flags := flags
    extractedText := ""
    amounts := []
    error := some errorMessage }

/-- Outcomes of the effectful steps in
`InvoiceOcrMathValidator.validate_invoice_image`, in program order:
`tesseractAvailable` and `tesseractError` embed the diagnostic dictionary of
`_tesseract_is_available`; `extraction` is the outcome of preprocessing plus
`_extract_text_with_tesseract` (the extracted text or the exception message);
`parsedAmounts` is the output of the regex-driven
`_extract_amounts_from_text` on that text, taken as given here because no
claim under study depends on the regex itself. -/
structure OcrRunEnv where
  tesseractAvailable : Bool
  tesseractError : Option String
  extraction : Except String String
  parsedAmounts : List ParsedAmount

/-- Embeds `InvoiceOcrMathValidator.validate_invoice_image` from the
availability preflight to the assembled result dictionary. -/
def validateInvoiceImage (env : OcrRunEnv) (toleranceRatio : ℚ) : OcrPayload :=
  if !env.tesseractAvailable then
    inconclusiveOcrReport "INCONCLUSIVE - Tesseract not installed"
      ["Tesseract OCR is not available; install it to enable OCR checks."]
      (pyOr env.tesseractError "Tesseract not found")
  else
    match env.extraction with
    | Except.error message =>
      inconclusiveOcrReport "INCONCLUSIVE - OCR extraction failed"
        ["OCR extraction failed; poor scan quality can trigger this."]
        message
    | Except.ok extractedText =>
      let extractedTextDisplay := (extractedText.replace "\x00" "").take 500
      let numericValues := env.parsedAmounts.map ParsedAmount.value
      let scoringBundle := scoreAmountConsistencyChecks numericValues toleranceRatio
      { score := min 100 scoringBundle.score
        verdict := ocrRiskVerdict scoringBundle.score
        flags := scoringBundle.flags
        extractedText := extractedTextDisplay
        amounts := env.parsedAmounts
        error := none }

/-- Embeds `InvoiceFraudScorer._run_ocr_check`: the aggregator-side wrapper
replacing any exception escaping the OCR validator with a fixed payload. -/
def runOcrCheck (outcome : Except String OcrPayload) : OcrPayload :=
  match outcome with
  | Except.ok payload => payload
  | Except.error message =>
    { score := 40
      verdict := "INCONCLUSIVE - OCR failed"
      flags := ["OCR validation failed unexpectedly."]
      extractedText := ""
      amounts := []
      error := some message }

/-! Helper lemmas shared by several of the claim theorems below. -/

lemma round2_nonneg {q : ℚ} (hq : 0 ≤ q) : 0 ≤ round2 q := by
  have h : (0 : ℤ) ≤ round (q * 100) := by
    rw [round_eq]
    have h0 : (0 : ℤ) = ⌊(0 : ℚ) + 1 / 2⌋ := by norm_num
    rw [h0]
    exact Int.floor_le_floor (by linarith)
  have h2 : (0 : ℚ) ≤ ((round (q * 100) : ℤ) : ℚ) := by exact_mod_cast h
  unfold round2
  exact div_nonneg h2 (by norm_num)

lemma round2_le_100 {q : ℚ} (hq : q ≤ 100) : round2 q ≤ 100 := by
  have h : round (q * 100) ≤ 10000 := by
    rw [round_eq]
    have h1 : ⌊(10000 : ℚ) + 1 / 2⌋ = 10000 := by
      rw [Int.floor_eq_iff]
      norm_num
    rw [← h1]
    exact Int.floor_le_floor (by linarith)
  have h2 : ((round (q * 100) : ℤ) : ℚ) ≤ 10000 := by exact_mod_cast h
  unfold round2
  rw [div_le_iff₀ (by norm_num)]
  linarith

lemma scoreValue_mem_range {entry : ScoreEntry} {fallback : ℚ}
    (hfb0 : 0 ≤ fallback) (hfb1 : fallback ≤ 100)
    (hnum : ∀ value, entry = ScoreEntry.numeric value → 0 ≤ value ∧ value ≤ 100) :
    0 ≤ scoreValue entry fallback ∧ scoreValue entry fallback ≤ 100 := by
  cases entry with
  | missing => exact ⟨hfb0, hfb1⟩
  | nonNumeric => exact ⟨hfb0, hfb1⟩
  | numeric value => exact hnum value rfl

/-- C1: the aggregator's final score is the 0.4/0.3/0.3 weighted combination
of the three component scores rounded to two decimals, with fallbacks 50
(ELA), 50 (metadata), 40 (OCR) for a missing or non-numeric score entry; the
component scores 80/50/40 give final score 59.00 with the medium-risk
verdict. -/
theorem aggregator_weighted_score_formula :
    (∀ elaEntry metadataEntry ocrEntry : ScoreEntry,
        (assembleFraudReport elaEntry metadataEntry ocrEntry).finalScore
          = round2 (scoreValue elaEntry 50 * (4/10)
              + scoreValue metadataEntry 50 * (3/10)
              + scoreValue ocrEntry 40 * (3/10))) ∧
    scoreValue ScoreEntry.missing 50 = 50 ∧
    scoreValue ScoreEntry.nonNumeric 50 = 50 ∧
    scoreValue ScoreEntry.missing 40 = 40 ∧
    scoreValue ScoreEntry.nonNumeric 40 = 40 ∧
    (assembleFraudReport (ScoreEntry.numeric 80) (ScoreEntry.numeric 50)
        (ScoreEntry.numeric 40)).finalScore = 59 ∧
    (assembleFraudReport (ScoreEntry.numeric 80) (ScoreEntry.numeric 50)
        (ScoreEntry.numeric 40)).verdict = "MEDIUM RISK - Requires Review" := by
  refine ⟨fun e m o => rfl, rfl, rfl, rfl, rfl, ?_, ?_⟩
  · show round2 ((80 : ℚ) * (4/10) + 50 * (3/10) + 40 * (3/10)) = 59
    norm_num [round2, round_eq]
  · show finalVerdictFromScore ((80 : ℚ) * (4/10) + 50 * (3/10) + 40 * (3/10))
        = "MEDIUM RISK - Requires Review"
    norm_num [finalVerdictFromScore]

/-- C2 counterexample: when `_ensure_directory` fails (it is invoked before
the `try` block), `analyze_invoice_image` raises `OSError` past its boundary
instead of returning the fixed inconclusive payload. -/
theorem ela_mkdir_failure_raises :
    elaAnalyzeInvoiceImage
        { mkdirFailure := some "Failed to create directory: static/results"
          observations := Except.error "unreached"
          persistVisualization := Except.error "unreached" }
      = Except.error "Failed to create directory: static/results" := rfl

/-- C2 amended: once the results-directory creation step has succeeded, the
ELA analyzer never raises: any failure while computing the ELA observations
or while persisting the visualization is returned as the fixed inconclusive
payload with score 50, the processing-failed verdict, a null visualization
path, and the failure message in the error field; a failure of the directory
creation step itself raises instead. -/
theorem ela_inconclusive_after_directory_step :
    ∀ env : ElaRunEnv, env.mkdirFailure = none →
      (∃ payload, elaAnalyzeInvoiceImage env = Except.ok payload) ∧
      (∀ message, env.observations = Except.error message →
          elaAnalyzeInvoiceImage env = Except.ok (elaProcessingFailedPayload message)) ∧
      (∀ elaMetrics message, env.observations = Except.ok elaMetrics →
          env.persistVisualization = Except.error message →
          elaAnalyzeInvoiceImage env = Except.ok (elaProcessingFailedPayload message)) ∧
      (∀ message, elaProcessingFailedPayload message
          = { score := 50
              verdict := "INCONCLUSIVE - ELA processing failed"
              visualizationPath := none
              metrics := none
              error := some message }) := by
  intro env hmk
  refine ⟨?_, ?_, ?_, fun message => rfl⟩
  · unfold elaAnalyzeInvoiceImage
    rw [hmk]
    exact ⟨_, rfl⟩
  · intro message hobs
    unfold elaAnalyzeInvoiceImage
    rw [hmk, hobs]
  · intro elaMetrics message hobs hsave
    unfold elaAnalyzeInvoiceImage
    rw [hmk, hobs, hsave]

/-- C2 amended, witness: a concrete run where directory creation succeeds and
the observation step fails returns the fixed inconclusive payload. -/
theorem ela_inconclusive_after_directory_step_witness :
    elaAnalyzeInvoiceImage
        { mkdirFailure := none
          observations := Except.error "Failed to recompress image for ELA."
          persistVisualization := Except.error "unreached" }
      = Except.ok (elaProcessingFailedPayload "Failed to recompress image for ELA.") :=
  (ela_inconclusive_after_directory_step _ rfl).2.1
    "Failed to recompress image for ELA." rfl

/-- C7: an image with no extractable metadata fields produces exactly the
fixed terminal payload: score 50, the no-EXIF suspicious verdict, the single
stripped-metadata flag, an empty metadata mapping, and a null error. -/
theorem metadata_no_exif_fixed_result :
    inspectInvoiceImage []
      = { score := 50
          verdict := "SUSPICIOUS - No EXIF metadata found"
          flags := ["No EXIF metadata present (often stripped by editors or screenshots)."]
          metadata := []
          error := none } := rfl

/-- C8 counterexample: for a 3000 pixel wide image and a 2000 pixel maximum,
the metadata inspector receives the original image, not the downscaled one,
so it is false that every detector receives the downscaled image. -/
theorem metadata_receives_original_image :
    (2000 : ℤ) < ((3000 : ℕ) : ℤ) ∧
    shrinkImageToMaxWidth { width := 3000, height := 1000 } 2000
      = { width := 2000, height := 666 } ∧
    (analyzeDetectorInputs { width := 3000, height := 1000 } 2000).metadataInput
      = { width := 3000, height := 1000 } ∧
    (analyzeDetectorInputs { width := 3000, height := 1000 } 2000).metadataInput
      ≠ shrinkImageToMaxWidth { width := 3000, height := 1000 } 2000 := by
  refine ⟨by decide, by decide, rfl, by decide⟩

lemma shrink_height_close (h m w : ℕ) (hw : 0 < w) :
    |((max 1 (h * m / w) : ℕ) : ℚ) - (h : ℚ) * (m : ℚ) / (w : ℚ)| ≤ 1 := by
  have hw0 : ((w : ℕ) : ℚ) ≠ 0 := by
    exact_mod_cast hw.ne'
  set d := h * m / w with hd
  set r := h * m % w with hr
  have hdm : w * d + r = h * m := Nat.div_add_mod (h * m) w
  have hrlt : r < w := Nat.mod_lt _ hw
  have hmul : (h : ℚ) * m = (w : ℚ) * d + r := by exact_mod_cast hdm.symm
  have hideal : (h : ℚ) * m / w = (d : ℚ) + (r : ℚ) / w := by
    field_simp
    linear_combination hmul
  have hr0 : (0 : ℚ) ≤ (r : ℚ) / w := by positivity
  have hr1 : (r : ℚ) / w < 1 := by
    rw [div_lt_one (by exact_mod_cast hw)]
    exact_mod_cast hrlt
  rw [hideal]
  rcases Nat.eq_zero_or_pos d with hd0 | hdpos
  · rw [hd0]
    simp only [Nat.max_eq_left (Nat.zero_le 1), Nat.cast_zero, Nat.cast_one]
    rw [abs_le]
    constructor <;> simp <;> linarith
  · rw [max_eq_right hdpos]
    have heq : ((d : ℕ) : ℚ) - ((d : ℚ) + (r : ℚ) / w) = -((r : ℚ) / w) := by ring
    rw [heq, abs_neg, abs_of_nonneg hr0]
    linarith

/-- C8 amended: the aggregator routes the downscaled image to the ELA and
OCR detectors only; the metadata inspector always receives the original
image. When the configured maximum is positive and the width exceeds it, the
downscaled image has width exactly the maximum and a height within one pixel
of the exact aspect-preserving value; images at or below the maximum pass
through unchanged. -/
theorem downscale_only_ela_and_ocr :
    ∀ (invoiceImage : InvoiceImage) (maxWidthPx : ℤ),
      (analyzeDetectorInputs invoiceImage maxWidthPx).elaInput
        = shrinkImageToMaxWidth invoiceImage maxWidthPx ∧
      (analyzeDetectorInputs invoiceImage maxWidthPx).ocrInput
        = shrinkImageToMaxWidth invoiceImage maxWidthPx ∧
      (analyzeDetectorInputs invoiceImage maxWidthPx).metadataInput = invoiceImage ∧
      ((invoiceImage.width : ℤ) ≤ maxWidthPx →
        shrinkImageToMaxWidth invoiceImage maxWidthPx = invoiceImage) ∧
      (0 < maxWidthPx → maxWidthPx < (invoiceImage.width : ℤ) →
        (shrinkImageToMaxWidth invoiceImage maxWidthPx).width = maxWidthPx.toNat ∧
        |((shrinkImageToMaxWidth invoiceImage maxWidthPx).height : ℚ)
            - (invoiceImage.height : ℚ) * (maxWidthPx.toNat : ℚ) / (invoiceImage.width : ℚ)| ≤ 1) := by
  intro invoiceImage maxWidthPx
  refine ⟨rfl, rfl, rfl, ?_, ?_⟩
  · intro hle
    unfold shrinkImageToMaxWidth
    by_cases h0 : maxWidthPx ≤ 0
    · rw [if_pos h0]
    · rw [if_neg h0, if_pos hle]
  · intro hpos hlt
    have h0 : ¬ maxWidthPx ≤ 0 := not_le.mpr hpos
    have h1 : ¬ (invoiceImage.width : ℤ) ≤ maxWidthPx := not_le.mpr hlt
    have hw : 0 < invoiceImage.width := by
      have hz : (0 : ℤ) < (invoiceImage.width : ℤ) := lt_trans hpos hlt
      exact_mod_cast hz
    unfold shrinkImageToMaxWidth
    rw [if_neg h0, if_neg h1]
    exact ⟨rfl, shrink_height_close invoiceImage.height maxWidthPx.toNat invoiceImage.width hw⟩

/-- C8 amended, witness: the conclusions instantiated at a 3000 by 1000
image and a maximum width of 2000. -/
theorem downscale_only_ela_and_ocr_witness :
    (shrinkImageToMaxWidth { width := 3000, height := 1000 } 2000).width = (2000 : ℤ).toNat ∧
    |((shrinkImageToMaxWidth { width := 3000, height := 1000 } 2000).height : ℚ)
        - (((1000 : ℕ) : ℚ)) * (((2000 : ℤ).toNat : ℚ)) / (((3000 : ℕ) : ℚ))| ≤ 1 :=
  (downscale_only_ela_and_ocr { width := 3000, height := 1000 } 2000).2.2.2.2
    (by norm_num) (by norm_num)

/-- C9: across the detector boundaries and the aggregator's per-detector
wrappers, the error field is populated only when the computation could not
complete, and every failure payload carries the documented fallback score:
50 for ELA, 50 for metadata, 40 for OCR. The metadata inspector itself never
populates the error field (all its branches complete normally). -/
theorem error_nonnull_implies_fallback_score :
    (∀ (env : ElaRunEnv) (payload : ElaPayload),
        elaAnalyzeInvoiceImage env = Except.ok payload →
        payload.error ≠ none → payload.score = 50) ∧
    (∀ env : ElaRunEnv,
        (runElaCheck (elaAnalyzeInvoiceImage env)).error ≠ none →
        (runElaCheck (elaAnalyzeInvoiceImage env)).score = 50) ∧
    (∀ exifMetadata : ExifMap, (inspectInvoiceImage exifMetadata).error = none) ∧
    (∀ (isPdf : Bool) (exifMetadata : ExifMap),
        (runMetadataCheck isPdf (Except.ok (inspectInvoiceImage exifMetadata))).error ≠ none →
        (runMetadataCheck isPdf (Except.ok (inspectInvoiceImage exifMetadata))).score = 50) ∧
    (∀ (isPdf : Bool) (message : String),
        (runMetadataCheck isPdf (Except.error message)).error ≠ none →
        (runMetadataCheck isPdf (Except.error message)).score = 50) ∧
    (∀ (env : OcrRunEnv) (toleranceRatio : ℚ),
        (validateInvoiceImage env toleranceRatio).error ≠ none →
        (validateInvoiceImage env toleranceRatio).score = 40) ∧
    (∀ (env : OcrRunEnv) (toleranceRatio : ℚ),
        (runOcrCheck (Except.ok (validateInvoiceImage env toleranceRatio))).error ≠ none →
        (runOcrCheck (Except.ok (validateInvoiceImage env toleranceRatio))).score = 40) ∧
    (∀ message : String,
        (runOcrCheck (Except.error message)).error ≠ none →
        (runOcrCheck (Except.error message)).score = 40) := by
  have hela : ∀ (env : ElaRunEnv) (payload : ElaPayload),
      elaAnalyzeInvoiceImage env = Except.ok payload →
      payload.error ≠ none → payload.score = 50 := by
    intro env payload hok herr
    obtain ⟨mk, obs, save⟩ := env
    cases mk with
    | some message => exact absurd hok (by simp [elaAnalyzeInvoiceImage])
    | none =>
      cases obs with
      | error message =>
        have h := Except.ok.inj hok
        rw [← h]
        rfl
      | ok elaMetrics =>
        cases save with
        | error message =>
          have h := Except.ok.inj hok
          rw [← h]
          rfl
        | ok path =>
          have h := Except.ok.inj hok
          rw [← h] at herr
          exact absurd rfl herr
  have hmeta : ∀ exifMetadata : ExifMap, (inspectInvoiceImage exifMetadata).error = none := by
    intro exifMetadata
    unfold inspectInvoiceImage
    by_cases hempty : exifMetadata.isEmpty
    · rw [if_pos hempty]
    · rw [if_neg hempty]
  have hocr : ∀ (env : OcrRunEnv) (toleranceRatio : ℚ),
      (validateInvoiceImage env toleranceRatio).error ≠ none →
      (validateInvoiceImage env toleranceRatio).score = 40 := by
    intro env toleranceRatio herr
    cases htess : env.tesseractAvailable with
    | false => simp [validateInvoiceImage, htess, inconclusiveOcrReport]
    | true =>
      cases hext : env.extraction with
      | error message => simp [validateInvoiceImage, htess, hext, inconclusiveOcrReport]
      | ok text =>
        exfalso
        apply herr
        simp [validateInvoiceImage, htess, hext]
  refine ⟨hela, ?_, hmeta, ?_, ?_, hocr, ?_, ?_⟩
  · intro env herr
    cases houtcome : elaAnalyzeInvoiceImage env with
    | error message => simp [runOcrCheck, runElaCheck, houtcome]
    | ok payload =>
      simpa [runElaCheck] using hela env payload houtcome
        (by simpa [runElaCheck, houtcome] using herr)
  · intro isPdf exifMetadata herr
    cases isPdf with
    | true => simp [runMetadataCheck] at herr
    | false => simp [runMetadataCheck, hmeta exifMetadata] at herr
  · intro isPdf message herr
    cases isPdf <;> rfl
  · intro env toleranceRatio herr
    exact hocr env toleranceRatio (by simpa [runOcrCheck] using herr)
  · intro message herr
    rfl

/-- C9 witness: a concrete ELA run whose directory creation fails yields a
wrapper payload with score 50, and a concrete OCR run without Tesseract
yields a payload with score 40, both obtained through the theorem. -/
theorem error_nonnull_implies_fallback_score_witness :
    (runElaCheck (elaAnalyzeInvoiceImage
        { mkdirFailure := some "Failed to create directory: static/results"
          observations := Except.error "unreached"
          persistVisualization := Except.error "unreached" })).score = 50 ∧
    (validateInvoiceImage
        { tesseractAvailable := false
          tesseractError := some "tesseract is not installed"
          extraction := Except.error "unreached"
          parsedAmounts := [] } (3/20)).score = 40 := by
  constructor
  · exact error_nonnull_implies_fallback_score.2.1 _ (by simp [runElaCheck, elaAnalyzeInvoiceImage])
  · exact error_nonnull_implies_fallback_score.2.2.2.2.2.1 _ _
      (by simp [validateInvoiceImage, inconclusiveOcrReport])

lemma scoreChecks_score_eq (amountValues : List ℚ) (toleranceRatio : ℚ) :
    (scoreAmountConsistencyChecks amountValues toleranceRatio).score =
      (if amountValues.length < 2 then (40 : ℚ) else 0)
        + (if !amountValues.isEmpty && !(duplicateValues (amountValues.map round2)).isEmpty
            then (20 : ℚ) else 0)
        + (if sumMismatchWithTolerance amountValues toleranceRatio then (35 : ℚ) else 0) := rfl

lemma scoreChecks_flags_eq (amountValues : List ℚ) (toleranceRatio : ℚ) :
    (scoreAmountConsistencyChecks amountValues toleranceRatio).flags =
      (if amountValues.length < 2 then ["Too few amounts detected by OCR (< 2)."] else [])
        ++ (if !amountValues.isEmpty && !(duplicateValues (amountValues.map round2)).isEmpty
            then
              ["Duplicate amounts detected: "
                ++ String.intercalate ", "
                    (((duplicateValues (amountValues.map round2)).insertionSort (· ≤ ·)).map
                      formatTwoDp)]
            else [])
        ++ (if sumMismatchWithTolerance amountValues toleranceRatio then
              ["Line items do not sum to the total within the allowed tolerance."]
            else []) := rfl

lemma sumMismatch_false_of_short {amountValues : List ℚ} (toleranceRatio : ℚ)
    (h : amountValues.length < 3) :
    sumMismatchWithTolerance amountValues toleranceRatio = false := by
  unfold sumMismatchWithTolerance
  exact if_pos h

lemma short_no_dup {amountValues : List ℚ} (hfew : amountValues.length < 2) :
    (!amountValues.isEmpty && !(duplicateValues (amountValues.map round2)).isEmpty) = false := by
  rcases amountValues with _ | ⟨q, _ | ⟨q2, rest⟩⟩
  · rfl
  · simp [duplicateValues]
  · exact absurd hfew (by simp)

lemma scoreChecks_eq_40_of_few {amountValues : List ℚ} (toleranceRatio : ℚ)
    (hfew : amountValues.length < 2) :
    (scoreAmountConsistencyChecks amountValues toleranceRatio).score = 40 := by
  rw [scoreChecks_score_eq, if_pos hfew, short_no_dup hfew,
    sumMismatch_false_of_short toleranceRatio (by omega)]
  norm_num

lemma scoreChecks_le_55 (amountValues : List ℚ) (toleranceRatio : ℚ) :
    (scoreAmountConsistencyChecks amountValues toleranceRatio).score ≤ 55 := by
  by_cases hfew : amountValues.length < 2
  · rw [scoreChecks_eq_40_of_few toleranceRatio hfew]
    norm_num
  · rw [scoreChecks_score_eq, if_neg hfew]
    split_ifs <;> norm_num

lemma scoreChecks_nonneg (amountValues : List ℚ) (toleranceRatio : ℚ) :
    0 ≤ (scoreAmountConsistencyChecks amountValues toleranceRatio).score := by
  rw [scoreChecks_score_eq]
  split_ifs <;> norm_num

/-- C10: on the OCR success path, the consistency score never exceeds 55:
the too-few-amounts penalty forces exactly 40 (duplicates and sum mismatch
cannot fire with fewer than two amounts), and otherwise only 20 + 35 = 55 is
reachable, so the returned score stays below 65 and the high-risk OCR
verdict is unreachable. -/
theorem ocr_success_score_at_most_55 :
    (∀ (amountValues : List ℚ) (toleranceRatio : ℚ),
        (scoreAmountConsistencyChecks amountValues toleranceRatio).score ≤ 55) ∧
    (∀ (amountValues : List ℚ) (toleranceRatio : ℚ), amountValues.length < 2 →
        (scoreAmountConsistencyChecks amountValues toleranceRatio).score = 40) ∧
    (∀ (env : OcrRunEnv) (toleranceRatio : ℚ) (extractedText : String),
        env.tesseractAvailable = true → env.extraction = Except.ok extractedText →
        (validateInvoiceImage env toleranceRatio).score ≤ 55 ∧
        (validateInvoiceImage env toleranceRatio).score < 65 ∧
        (validateInvoiceImage env toleranceRatio).verdict ≠ "HIGH OCR RISK") := by
  refine ⟨scoreChecks_le_55, fun l t h => scoreChecks_eq_40_of_few t h, ?_⟩
  intro env toleranceRatio extractedText htess hext
  have hle := scoreChecks_le_55 (env.parsedAmounts.map ParsedAmount.value) toleranceRatio
  have hscore : (validateInvoiceImage env toleranceRatio).score
      = (scoreAmountConsistencyChecks (env.parsedAmounts.map ParsedAmount.value)
          toleranceRatio).score := by
    simp only [validateInvoiceImage, htess, Bool.not_true, Bool.false_eq_true, if_false, hext]
    exact min_eq_right (le_trans hle (by norm_num))
  have hverdict : (validateInvoiceImage env toleranceRatio).verdict
      = ocrRiskVerdict
          ((scoreAmountConsistencyChecks (env.parsedAmounts.map ParsedAmount.value)
            toleranceRatio).score) := by
    simp only [validateInvoiceImage, htess, Bool.not_true, Bool.false_eq_true, if_false, hext]
  refine ⟨by rw [hscore]; exact hle, by rw [hscore]; linarith, ?_⟩
  rw [hverdict]
  unfold ocrRiskVerdict
  rw [if_neg (by push_neg; linarith)]
  split_ifs <;> decide

/-- C10 witness: the bounds instantiated at a concrete successful OCR run
that fires both the duplicate and the mismatch penalties. -/
theorem ocr_success_score_at_most_55_witness :
    (scoreAmountConsistencyChecks [100, 40, 40] (3/20)).score ≤ 55 ∧
    (scoreAmountConsistencyChecks [] (3/20)).score = 40 ∧
    (validateInvoiceImage
        { tesseractAvailable := true
          tesseractError := none
          extraction := Except.ok "Total 100.00"
          parsedAmounts := [{ raw := "100.00", value := 100 }] } (3/20)).verdict
      ≠ "HIGH OCR RISK" :=
  ⟨ocr_success_score_at_most_55.1 [100, 40, 40] (3/20),
    ocr_success_score_at_most_55.2.1 [] (3/20) (by norm_num),
    (ocr_success_score_at_most_55.2.2 _ (3/20) "Total 100.00" rfl rfl).2.2⟩

lemma inspect_nonempty_score_verdict (exifMetadata : ExifMap)
    (h : exifMetadata.isEmpty = false) :
    ∃ s : ℚ, 0 ≤ s ∧ s ≤ 65 ∧
      (inspectInvoiceImage exifMetadata).score = min 100 s ∧
      (inspectInvoiceImage exifMetadata).verdict = metadataRiskVerdict s := by
  refine ⟨(if (detectEditingSoftware exifMetadata).isSome then (30 : ℚ) else 0)
      + (if truthyStr (exifGet exifMetadata "DateTime")
            && truthyStr (exifGet exifMetadata "DateTimeOriginal")
            && (exifGet exifMetadata "DateTime" != exifGet exifMetadata "DateTimeOriginal")
          then (20 : ℚ) else 0)
      + (if (criticalExifFields.filter
              (fun field => !truthyStr (exifGet exifMetadata field))).isEmpty
          then (0 : ℚ) else 15), ?_, ?_, ?_, ?_⟩
  · split_ifs <;> norm_num
  · split_ifs <;> norm_num
  · unfold inspectInvoiceImage
    rw [if_neg (by simp [h])]
  · unfold inspectInvoiceImage
    rw [if_neg (by simp [h])]

/-- C4: every detector score and the aggregator's final score lie in the
closed interval from 0 to 100. The ELA hypotheses record that a brightness
mean and a brightness variance measured from an image are nonnegative; the
aggregator hypotheses record that the component payloads carry scores in
range, which the other conjuncts establish for the actual detectors. -/
theorem scores_within_zero_hundred :
    (∀ elaMetrics : ElaMetrics,
        0 ≤ elaMetrics.brightnessMean → 0 ≤ elaMetrics.brightnessVariance →
        0 ≤ scoreFromElaMetrics elaMetrics ∧ scoreFromElaMetrics elaMetrics ≤ 100) ∧
    (∀ (env : ElaRunEnv) (payload : ElaPayload),
        (∀ elaMetrics, env.observations = Except.ok elaMetrics →
            0 ≤ elaMetrics.brightnessMean ∧ 0 ≤ elaMetrics.brightnessVariance) →
        elaAnalyzeInvoiceImage env = Except.ok payload →
        0 ≤ payload.score ∧ payload.score ≤ 100) ∧
    (∀ exifMetadata : ExifMap,
        0 ≤ (inspectInvoiceImage exifMetadata).score ∧
        (inspectInvoiceImage exifMetadata).score ≤ 100) ∧
    (∀ (env : OcrRunEnv) (toleranceRatio : ℚ),
        0 ≤ (validateInvoiceImage env toleranceRatio).score ∧
        (validateInvoiceImage env toleranceRatio).score ≤ 100) ∧
    (∀ elaEntry metadataEntry ocrEntry : ScoreEntry,
        (∀ v, elaEntry = ScoreEntry.numeric v → 0 ≤ v ∧ v ≤ 100) →
        (∀ v, metadataEntry = ScoreEntry.numeric v → 0 ≤ v ∧ v ≤ 100) →
        (∀ v, ocrEntry = ScoreEntry.numeric v → 0 ≤ v ∧ v ≤ 100) →
        0 ≤ (assembleFraudReport elaEntry metadataEntry ocrEntry).finalScore ∧
        (assembleFraudReport elaEntry metadataEntry ocrEntry).finalScore ≤ 100) := by
  have hela : ∀ elaMetrics : ElaMetrics,
      0 ≤ elaMetrics.brightnessMean → 0 ≤ elaMetrics.brightnessVariance →
      0 ≤ scoreFromElaMetrics elaMetrics ∧ scoreFromElaMetrics elaMetrics ≤ 100 := by
    intro m h1 h2
    unfold scoreFromElaMetrics
    split_ifs with h0
    · norm_num
    · constructor
      · refine le_min (by norm_num) ?_
        have t1 : 0 ≤ m.brightnessMean / 255 * 50 :=
          mul_nonneg (div_nonneg h1 (by norm_num)) (by norm_num)
        have t2 : 0 ≤ m.brightnessVariance / 1000 * 50 :=
          mul_nonneg (div_nonneg h2 (by norm_num)) (by norm_num)
        linarith
      · exact min_le_left _ _
  refine ⟨hela, ?_, ?_, ?_, ?_⟩
  · intro env payload hm hok
    obtain ⟨mk, obs, save⟩ := env
    cases mk with
    | some message => exact absurd hok (by simp [elaAnalyzeInvoiceImage])
    | none =>
      cases obs with
      | error message =>
        have h := Except.ok.inj hok
        rw [← h]
        exact ⟨by norm_num [elaProcessingFailedPayload], by norm_num [elaProcessingFailedPayload]⟩
      | ok elaMetrics =>
        obtain ⟨hm1, hm2⟩ := hm elaMetrics rfl
        cases save with
        | error message =>
          have h := Except.ok.inj hok
          rw [← h]
          exact ⟨by norm_num [elaProcessingFailedPayload], by norm_num [elaProcessingFailedPayload]⟩
        | ok path =>
          have h := Except.ok.inj hok
          rw [← h]
          have hr := hela elaMetrics hm1 hm2
          exact ⟨round2_nonneg hr.1, round2_le_100 hr.2⟩
  · intro exifMetadata
    by_cases hempty : exifMetadata.isEmpty
    · have h50 : (inspectInvoiceImage exifMetadata).score = 50 := by
        unfold inspectInvoiceImage
        rw [if_pos hempty]
      rw [h50]
      norm_num
    · obtain ⟨s, h0, h65, hs, _⟩ :=
        inspect_nonempty_score_verdict exifMetadata (by simpa using hempty)
      rw [hs]
      exact ⟨le_min (by norm_num) h0, min_le_left _ _⟩
  · intro env toleranceRatio
    cases htess : env.tesseractAvailable with
    | false =>
      have : (validateInvoiceImage env toleranceRatio).score = 40 := by
        simp [validateInvoiceImage, htess, inconclusiveOcrReport]
      rw [this]
      norm_num
    | true =>
      cases hext : env.extraction with
      | error message =>
        have : (validateInvoiceImage env toleranceRatio).score = 40 := by
          simp [validateInvoiceImage, htess, hext, inconclusiveOcrReport]
        rw [this]
        norm_num
      | ok extractedText =>
        have hs : (validateInvoiceImage env toleranceRatio).score
            = min 100 ((scoreAmountConsistencyChecks
                (env.parsedAmounts.map ParsedAmount.value) toleranceRatio).score) := by
          simp only [validateInvoiceImage, htess, Bool.not_true, Bool.false_eq_true, if_false,
            hext]
        rw [hs]
        exact ⟨le_min (by norm_num) (scoreChecks_nonneg _ _), min_le_left _ _⟩
  · intro elaEntry metadataEntry ocrEntry he hm ho
    obtain ⟨he0, he1⟩ := @scoreValue_mem_range elaEntry 50 (by norm_num) (by norm_num) he
    obtain ⟨hm0, hm1⟩ := @scoreValue_mem_range metadataEntry 50 (by norm_num) (by norm_num) hm
    obtain ⟨ho0, ho1⟩ := @scoreValue_mem_range ocrEntry 40 (by norm_num) (by norm_num) ho
    have hW0 : 0 ≤ scoreValue elaEntry 50 * (4/10) + scoreValue metadataEntry 50 * (3/10)
        + scoreValue ocrEntry 40 * (3/10) := by linarith
    have hW1 : scoreValue elaEntry 50 * (4/10) + scoreValue metadataEntry 50 * (3/10)
        + scoreValue ocrEntry 40 * (3/10) ≤ 100 := by linarith
    exact ⟨round2_nonneg hW0, round2_le_100 hW1⟩

/-- C4 witness: the range bounds instantiated at concrete metrics, a
concrete metadata mapping, a concrete OCR run, and concrete numeric score
entries. -/
theorem scores_within_zero_hundred_witness :
    (0 ≤ scoreFromElaMetrics
        { brightnessMean := 10, brightnessVariance := 200
          maxPixelDifference := 12, jpegQuality := 90 } ∧
      scoreFromElaMetrics
        { brightnessMean := 10, brightnessVariance := 200
          maxPixelDifference := 12, jpegQuality := 90 } ≤ 100) ∧
    (0 ≤ (assembleFraudReport (ScoreEntry.numeric 80) (ScoreEntry.numeric 50)
          (ScoreEntry.numeric 40)).finalScore ∧
      (assembleFraudReport (ScoreEntry.numeric 80) (ScoreEntry.numeric 50)
          (ScoreEntry.numeric 40)).finalScore ≤ 100) := by
  constructor
  · exact scores_within_zero_hundred.1 _ (by norm_num) (by norm_num)
  · refine scores_within_zero_hundred.2.2.2.2 _ _ _ ?_ ?_ ?_ <;>
      (intro v hv; cases hv; norm_num)

/-- C3 counterexample: the no-EXIF terminal result reports score 50, which
lies in the medium bucket, yet its verdict is the fixed suspicious label and
not the medium metadata label, so the verdict is not a function of the
reported score through the shared thresholds across all results. -/
theorem no_exif_verdict_not_medium_label :
    (inspectInvoiceImage []).score = 50 ∧
    (40 : ℚ) ≤ (inspectInvoiceImage []).score ∧
    (inspectInvoiceImage []).score < 65 ∧
    (inspectInvoiceImage []).verdict ≠ "MEDIUM METADATA RISK" ∧
    (inspectInvoiceImage []).verdict ≠ metadataRiskVerdict (inspectInvoiceImage []).score := by
  have h1 : (inspectInvoiceImage []).score = 50 := rfl
  have h2 : (inspectInvoiceImage []).verdict = "SUSPICIOUS - No EXIF metadata found" := rfl
  have h3 : metadataRiskVerdict 50 = "MEDIUM METADATA RISK" := by
    norm_num [metadataRiskVerdict]
  refine ⟨h1, by rw [h1]; norm_num, by rw [h1]; norm_num, by rw [h2]; decide, ?_⟩
  rw [h1, h2, h3]
  decide

/-- C3 amended: on every scoring branch the verdict label is the shared
40/65 threshold bucketing of the score computed before rounding and capping;
for the metadata and OCR scoring branches this coincides with the bucketing
of the reported score (their caps never bind), while the aggregator buckets
the unrounded weighted sum; fixed payloads (no EXIF, no compression
artifacts, inconclusive failures) carry fixed labels outside the bucketing. -/
theorem verdict_matches_threshold_bucketing :
    (∀ exifMetadata : ExifMap, exifMetadata.isEmpty = false →
        (inspectInvoiceImage exifMetadata).verdict
          = metadataRiskVerdict (inspectInvoiceImage exifMetadata).score) ∧
    (∀ (env : OcrRunEnv) (toleranceRatio : ℚ) (extractedText : String),
        env.tesseractAvailable = true → env.extraction = Except.ok extractedText →
        (validateInvoiceImage env toleranceRatio).verdict
          = ocrRiskVerdict ((validateInvoiceImage env toleranceRatio).score)) ∧
    (∀ elaMetrics : ElaMetrics, elaMetrics.maxPixelDifference ≠ 0 →
        elaVerdictFromMetrics elaMetrics
          = riskVerdictForScore (scoreFromElaMetrics elaMetrics) "ELA") ∧
    (∀ elaEntry metadataEntry ocrEntry : ScoreEntry,
        (assembleFraudReport elaEntry metadataEntry ocrEntry).verdict
          = finalVerdictFromScore
              (scoreValue elaEntry 50 * (4/10) + scoreValue metadataEntry 50 * (3/10)
                + scoreValue ocrEntry 40 * (3/10))) ∧
    (∀ s : ℚ,
        (65 ≤ s → finalVerdictFromScore s = "HIGH RISK - Likely Tampered") ∧
        (40 ≤ s → s < 65 → finalVerdictFromScore s = "MEDIUM RISK - Requires Review") ∧
        (s < 40 → finalVerdictFromScore s = "LOW RISK - Appears Authentic")) := by
  refine ⟨?_, ?_, ?_, fun e m o => rfl, ?_⟩
  · intro exifMetadata h
    obtain ⟨s, h0, h65, hs, hv⟩ := inspect_nonempty_score_verdict exifMetadata h
    rw [hv, hs, min_eq_right (by linarith)]
  · intro env toleranceRatio extractedText htess hext
    have hle := scoreChecks_le_55 (env.parsedAmounts.map ParsedAmount.value) toleranceRatio
    have hs : (validateInvoiceImage env toleranceRatio).score
        = (scoreAmountConsistencyChecks (env.parsedAmounts.map ParsedAmount.value)
            toleranceRatio).score := by
      simp only [validateInvoiceImage, htess, Bool.not_true, Bool.false_eq_true, if_false, hext]
      exact min_eq_right (le_trans hle (by norm_num))
    have hv : (validateInvoiceImage env toleranceRatio).verdict
        = ocrRiskVerdict
            ((scoreAmountConsistencyChecks (env.parsedAmounts.map ParsedAmount.value)
              toleranceRatio).score) := by
      simp only [validateInvoiceImage, htess, Bool.not_true, Bool.false_eq_true, if_false, hext]
    rw [hv, hs]
  · intro elaMetrics h
    unfold elaVerdictFromMetrics
    rw [if_neg h]
  · intro s
    refine ⟨fun h => ?_, fun h1 h2 => ?_, fun h => ?_⟩
    · unfold finalVerdictFromScore
      rw [if_pos (by linarith)]
    · unfold finalVerdictFromScore
      rw [if_neg (by push_neg; linarith), if_pos (by linarith)]
    · unfold finalVerdictFromScore
      rw [if_neg (by push_neg; linarith), if_neg (by push_neg; linarith)]

/-- C3 amended, witness: the bucketing equalities instantiated at a concrete
metadata mapping, a concrete OCR run, and concrete ELA metrics. -/
theorem verdict_matches_threshold_bucketing_witness :
    (inspectInvoiceImage [("Make", "Canon")]).verdict
      = metadataRiskVerdict (inspectInvoiceImage [("Make", "Canon")]).score ∧
    (validateInvoiceImage
        { tesseractAvailable := true
          tesseractError := none
          extraction := Except.ok "Total 100.00"
          parsedAmounts := [{ raw := "100.00", value := 100 }] } (3/20)).verdict
      = ocrRiskVerdict ((validateInvoiceImage
          { tesseractAvailable := true
            tesseractError := none
            extraction := Except.ok "Total 100.00"
            parsedAmounts := [{ raw := "100.00", value := 100 }] } (3/20)).score) ∧
    elaVerdictFromMetrics
        { brightnessMean := 100, brightnessVariance := 500
          maxPixelDifference := 20, jpegQuality := 90 }
      = riskVerdictForScore (scoreFromElaMetrics
          { brightnessMean := 100, brightnessVariance := 500
            maxPixelDifference := 20, jpegQuality := 90 }) "ELA" :=
  ⟨verdict_matches_threshold_bucketing.1 _ rfl,
    verdict_matches_threshold_bucketing.2.1 _ (3/20) "Total 100.00" rfl rfl,
    verdict_matches_threshold_bucketing.2.2.1 _ (by norm_num)⟩

lemma sortAsc_getLast_eq_max {l : List ℚ} {M : ℚ} (hne : l ≠ [])
    (hmem : M ∈ l) (hub : ∀ x ∈ l, x ≤ M) :
    (l.insertionSort (· ≤ ·)).getLast? = some M := by
  have hperm : (l.insertionSort (· ≤ ·)).Perm l := l.perm_insertionSort _
  have hsne : l.insertionSort (· ≤ ·) ≠ [] :=
    fun h => hne (List.Perm.eq_nil (h ▸ hperm).symm)
  rw [List.getLast?_eq_getLast_of_ne_nil hsne]
  have hlastmem := List.getLast_mem hsne
  have hle : (l.insertionSort (· ≤ ·)).getLast hsne ≤ M := hub _ (hperm.mem_iff.mp hlastmem)
  have hsorted : (l.insertionSort (· ≤ ·)).Sorted (· ≤ ·) := l.sorted_insertionSort _
  have hMs : M ∈ l.insertionSort (· ≤ ·) := hperm.mem_iff.mpr hmem
  have hge : M ≤ (l.insertionSort (· ≤ ·)).getLast hsne := by
    have hdecomp := List.dropLast_append_getLast hsne
    rw [← hdecomp] at hMs hsorted
    rcases List.mem_append.mp hMs with hIn | hIn
    · have hp : List.Pairwise (· ≤ ·)
          ((l.insertionSort (· ≤ ·)).dropLast
            ++ [(l.insertionSort (· ≤ ·)).getLast hsne]) := hsorted
      exact (List.pairwise_append.mp hp).2.2 M hIn _ (List.mem_singleton_self _)
    · exact le_of_eq (List.mem_singleton.mp hIn)
  exact congrArg some (le_antisymm hle hge)

lemma sortAsc_dropLast_sum {l : List ℚ} {M : ℚ} (hne : l ≠ [])
    (hmem : M ∈ l) (hub : ∀ x ∈ l, x ≤ M) :
    (l.insertionSort (· ≤ ·)).dropLast.sum = l.sum - M := by
  have hperm : (l.insertionSort (· ≤ ·)).Perm l := l.perm_insertionSort _
  have hsne : l.insertionSort (· ≤ ·) ≠ [] :=
    fun h => hne (List.Perm.eq_nil (h ▸ hperm).symm)
  have hlast : (l.insertionSort (· ≤ ·)).getLast hsne = M := by
    have h1 := sortAsc_getLast_eq_max hne hmem hub
    rw [List.getLast?_eq_getLast_of_ne_nil hsne] at h1
    exact Option.some.inj h1
  have hsum : (l.insertionSort (· ≤ ·)).sum = l.sum := hperm.sum_eq
  have hdecomp := List.dropLast_append_getLast hsne
  have hkey : (l.insertionSort (· ≤ ·)).dropLast.sum + (l.insertionSort (· ≤ ·)).getLast hsne
      = (l.insertionSort (· ≤ ·)).sum := by
    conv_rhs => rw [← hdecomp]
    rw [List.sum_append, List.sum_singleton]
  rw [hlast, hsum] at hkey
  linarith

lemma sumMismatch_characterization (l : List ℚ) (t M : ℚ) (h3 : 3 ≤ l.length)
    (hmem : M ∈ l) (hub : ∀ x ∈ l, x ≤ M) :
    sumMismatchWithTolerance l t
      = if M ≤ 0 then false else decide (|l.sum - M - M| / M > t) := by
  have hne : l ≠ [] := by
    intro h
    rw [h] at h3
    simp at h3
  unfold sumMismatchWithTolerance
  rw [if_neg (by omega)]
  simp only [sortAsc_getLast_eq_max hne hmem hub, sortAsc_dropLast_sum hne hmem hub]

lemma ne_dup_flag (x : String) :
    "Line items do not sum to the total within the allowed tolerance."
      ≠ "Duplicate amounts detected: " ++ x := by
  intro h
  have hd := congrArg String.data h
  rw [String.data_append] at hd
  have hhead := congrArg List.head? hd
  have hr : ("Duplicate amounts detected: ".data ++ x.data).head? = some 'D' := rfl
  rw [hr] at hhead
  exact absurd hhead (by decide)

lemma mismatch_flag_iff (amountValues : List ℚ) (toleranceRatio : ℚ) :
    ("Line items do not sum to the total within the allowed tolerance."
        ∈ (scoreAmountConsistencyChecks amountValues toleranceRatio).flags)
      ↔ sumMismatchWithTolerance amountValues toleranceRatio = true := by
  rw [scoreChecks_flags_eq]
  by_cases m : sumMismatchWithTolerance amountValues toleranceRatio
  · rw [m]
    simp
  · constructor
    · intro hmem
      exfalso
      rw [Bool.not_eq_true] at m
      rw [m] at hmem
      simp only [Bool.false_eq_true, if_false, List.append_nil] at hmem
      rcases List.mem_append.mp hmem with hA | hB
      · by_cases hf : amountValues.length < 2
        · rw [if_pos hf] at hA
          have := List.mem_singleton.mp hA
          exact absurd this (by decide)
        · rw [if_neg hf] at hA
          exact absurd hA (List.not_mem_nil _)
      · by_cases hdup : (!amountValues.isEmpty
            && !(duplicateValues (amountValues.map round2)).isEmpty) = true
        · rw [if_pos hdup] at hB
          exact ne_dup_flag _ (List.mem_singleton.mp hB)
        · rw [if_neg hdup] at hB
          exact absurd hB (List.not_mem_nil _)
    · intro h
      exact absurd h m

/-- C5: the sum-mismatch check fires only with at least three parsed
amounts; it treats the largest amount as the claimed total and the sum of
the rest as the line items, skips when the total is nonpositive, and flags a
mismatch exactly when the relative deviation exceeds the tolerance ratio;
amounts 100, 50, 50 at tolerance 0.15 produce no mismatch while amounts
100, 40, 40 do. -/
theorem ocr_sum_mismatch_behavior :
    (∀ (amountValues : List ℚ) (toleranceRatio : ℚ), amountValues.length < 3 →
        sumMismatchWithTolerance amountValues toleranceRatio = false) ∧
    (∀ (amountValues : List ℚ) (toleranceRatio maxValue : ℚ), 3 ≤ amountValues.length →
        maxValue ∈ amountValues → (∀ x ∈ amountValues, x ≤ maxValue) → maxValue ≤ 0 →
        sumMismatchWithTolerance amountValues toleranceRatio = false) ∧
    (∀ (amountValues : List ℚ) (toleranceRatio maxValue : ℚ), 3 ≤ amountValues.length →
        maxValue ∈ amountValues → (∀ x ∈ amountValues, x ≤ maxValue) → 0 < maxValue →
        (sumMismatchWithTolerance amountValues toleranceRatio = true ↔
          toleranceRatio < |amountValues.sum - maxValue - maxValue| / maxValue)) ∧
    (∀ (amountValues : List ℚ) (toleranceRatio : ℚ),
        ("Line items do not sum to the total within the allowed tolerance."
            ∈ (scoreAmountConsistencyChecks amountValues toleranceRatio).flags)
          ↔ sumMismatchWithTolerance amountValues toleranceRatio = true) ∧
    sumMismatchWithTolerance [100, 50, 50] (0.15 : ℚ) = false ∧
    sumMismatchWithTolerance [100, 40, 40] (0.15 : ℚ) = true := by
  refine ⟨?_, ?_, ?_, mismatch_flag_iff, ?_, ?_⟩
  · intro l t h
    exact sumMismatch_false_of_short t h
  · intro l t M h3 hmem hub hM
    rw [sumMismatch_characterization l t M h3 hmem hub, if_pos hM]
  · intro l t M h3 hmem hub hM
    rw [sumMismatch_characterization l t M h3 hmem hub, if_neg (not_le.mpr hM)]
    simp only [decide_eq_true_eq, gt_iff_lt]
  · simp only [sumMismatchWithTolerance, List.insertionSort, List.orderedInsert]
    norm_num
  · simp only [sumMismatchWithTolerance, List.insertionSort, List.orderedInsert]
    norm_num

/-- C5 witness: the general conjuncts instantiated at concrete amount
lists. -/
theorem ocr_sum_mismatch_behavior_witness :
    sumMismatchWithTolerance [100, 50] (0.15 : ℚ) = false ∧
    sumMismatchWithTolerance [0, -1, -2] (0.15 : ℚ) = false ∧
    sumMismatchWithTolerance [100, 40, 40] (0.15 : ℚ) = true ∧
    ("Line items do not sum to the total within the allowed tolerance."
        ∈ (scoreAmountConsistencyChecks [100, 40, 40] (0.15 : ℚ)).flags) := by
  have h1 := ocr_sum_mismatch_behavior.1 [100, 50] 0.15 (by norm_num)
  have h2 := ocr_sum_mismatch_behavior.2.1 [0, -1, -2] 0.15 0 (by norm_num)
    (by simp) (by intro x hx; fin_cases hx <;> norm_num) le_rfl
  have h3 := (ocr_sum_mismatch_behavior.2.2.1 [100, 40, 40] 0.15 100 (by norm_num)
    (by simp) (by intro x hx; fin_cases hx <;> norm_num) (by norm_num)).mpr
    (by norm_num)
  have h4 := (ocr_sum_mismatch_behavior.2.2.2.1 [100, 40, 40] 0.15).mpr h3
  exact ⟨h1, h2, h3, h4⟩

lemma detect_nonempty {exifMetadata : ExifMap} {software : String}
    (h : detectEditingSoftware exifMetadata = some software) :
    exifMetadata.isEmpty = false := by
  cases exifMetadata with
  | nil =>
    rw [show detectEditingSoftware ([] : ExifMap) = none from rfl] at h
    exact Option.noConfusion h
  | cons entry rest => rfl

/-- C6: an image whose metadata carries an editing-software marker, a
capture timestamp that differs from the original-capture timestamp, and at
least one missing critical field scores exactly 65 = 30 + 20 + 15, with the
three corresponding flags all present. -/
theorem metadata_three_signals_score65 :
    ∀ (exifMetadata : ExifMap) (software : String),
      detectEditingSoftware exifMetadata = some software →
      truthyStr (exifGet exifMetadata "DateTime") = true →
      truthyStr (exifGet exifMetadata "DateTimeOriginal") = true →
      exifGet exifMetadata "DateTime" ≠ exifGet exifMetadata "DateTimeOriginal" →
      criticalExifFields.filter (fun field => !truthyStr (exifGet exifMetadata field)) ≠ [] →
      (inspectInvoiceImage exifMetadata).score = 65 ∧
      ("Edited with: " ++ software) ∈ (inspectInvoiceImage exifMetadata).flags ∧
      "DateTime differs from DateTimeOriginal (possible re-save or edit)."
        ∈ (inspectInvoiceImage exifMetadata).flags ∧
      ("Missing critical EXIF fields: "
          ++ String.intercalate ", "
              (criticalExifFields.filter (fun field => !truthyStr (exifGet exifMetadata field))))
        ∈ (inspectInvoiceImage exifMetadata).flags := by
  intro exifMetadata software hsw hdt hdto hneq hmiss
  have hempty : exifMetadata.isEmpty = false := detect_nonempty hsw
  have hbne : (exifGet exifMetadata "DateTime" != exifGet exifMetadata "DateTimeOriginal")
      = true := bne_iff_ne.mpr hneq
  have hmissb : (criticalExifFields.filter
      (fun field => !truthyStr (exifGet exifMetadata field))).isEmpty = false := by
    cases hl : criticalExifFields.filter (fun field => !truthyStr (exifGet exifMetadata field)) with
    | nil => exact absurd hl hmiss
    | cons entry rest => rfl
  unfold inspectInvoiceImage
  rw [if_neg (by simp [hempty])]
  simp only [hsw, hdt, hdto, hbne, hmissb, Option.isSome_some, Bool.true_and, Bool.and_self,
    if_true, Bool.false_eq_true, if_false]
  refine ⟨by norm_num, ?_, ?_, ?_⟩ <;> simp

/-- C6 witness: the additive 65 score and its three flags at a concrete
metadata mapping carrying a Photoshop software marker, differing timestamps,
and missing device make and model. -/
theorem metadata_three_signals_score65_witness :
    (inspectInvoiceImage
        [("Software", "Adobe Photoshop 24.0"),
          ("DateTime", "2024:01:02 10:00:00"),
          ("DateTimeOriginal", "2024:01:01 10:00:00")]).score = 65 ∧
    ("Edited with: " ++ "Adobe Photoshop 24.0")
      ∈ (inspectInvoiceImage
          [("Software", "Adobe Photoshop 24.0"),
            ("DateTime", "2024:01:02 10:00:00"),
            ("DateTimeOriginal", "2024:01:01 10:00:00")]).flags ∧
    "DateTime differs from DateTimeOriginal (possible re-save or edit)."
      ∈ (inspectInvoiceImage
          [("Software", "Adobe Photoshop 24.0"),
            ("DateTime", "2024:01:02 10:00:00"),
            ("DateTimeOriginal", "2024:01:01 10:00:00")]).flags := by
  have h := metadata_three_signals_score65
    [("Software", "Adobe Photoshop 24.0"),
      ("DateTime", "2024:01:02 10:00:00"),
      ("DateTimeOriginal", "2024:01:01 10:00:00")]
    "Adobe Photoshop 24.0" (by decide) (by decide) (by decide) (by decide) (by decide)
  exact ⟨h.1, h.2.1, h.2.2.1⟩

end InvoiceTamper
